import Mathlib

/-!
Shallow embedding of the job orchestration and retry-pipeline engine of the
youtube-summarizer repository (src/index.js, jobManager / executeWithRetry /
pipelineAudioSummarization / pipelineVideoSummarization /
handleSummarizeRequest, and src/gcp-core.js deleteGCSFile), together with
theorems settling the frozen claims about it.

Conventions of the embedding:
- A JavaScript `Error` is a `JsError`, carrying its `message` string.
- A fallible asynchronous call is an `Except JsError` value; a zero-argument
  asynchronous operation that may be invoked several times is a function
  `Nat → Except JsError α` giving the outcome of its i-th invocation
  (0-based).
- `Math.random() * 500` jitter is a function `Nat → ℚ` giving the jitter
  drawn before retry attempt n, constrained by hypotheses `0 ≤ jitter n`
  and `jitter n < 500` where a claim needs them.
- The in-memory `Map` registry is a function `String → Option Job`;
  `Map.set` is pointwise update.
- Effects a claim observes (operation invocations, waits performed, status
  updates, delete-collaborator calls) are returned as explicit trace fields.
-/

/-- A JavaScript error value, reduced to the only field the code inspects:
its `message` string. -/
structure JsError where
  message : String
  deriving Repr, DecidableEq

/-- Character-list prefix test, used to embed `String.prototype.includes`. -/
def isPrefixChars : List Char → List Char → Bool
  | [], _ => true
  | _ :: _, [] => false
  | p :: ps, c :: cs => p == c && isPrefixChars ps cs

/-- Character-list substring test. -/
def containsChars (pat : List Char) : List Char → Bool
  | [] => isPrefixChars pat []
  | c :: cs => isPrefixChars pat (c :: cs) || containsChars pat cs

/-- Embedding of JavaScript `s.includes(pat)` for strings. -/
def strIncludes (s pat : String) : Bool :=
  containsChars pat.toList s.toList

/-- src/index.js:383-387 — an error is retryable when its message contains
the marker `503`, `429` or `408`. -/
def isRetryable (e : JsError) : Bool :=
  strIncludes e.message "503" || strIncludes e.message "429" ||
    strIncludes e.message "408"

/-- src/index.js:369 — the fixed maximum attempt count. -/
def MAX_RETRIES : Nat := 5

/-- src/index.js:370 — the initial backoff delay in milliseconds. -/
def INITIAL_DELAY : ℚ := 1000

/-- src/index.js:375 — the wait computed before retry attempt `attempt`
(`attempt ≥ 1`): `INITIAL_DELAY * 2^(attempt-1) + Math.random() * 500`,
with the random draw supplied by `jitter`. -/
def waitTime (jitter : Nat → ℚ) (attempt : Nat) : ℚ :=
  INITIAL_DELAY * 2 ^ (attempt - 1) + jitter attempt

/-- The observable trace of one `executeWithRetry` run: its result, how many
times the operation was invoked, and the waits performed (in order, one
before each retry attempt). -/
structure RetryTrace (α : Type) where
  result : Except JsError α
  invocations : Nat
  waits : List ℚ
  deriving Repr

/-- The body of the `for (let attempt = 0; attempt < MAX_RETRIES; attempt++)`
loop of `executeWithRetry` (src/index.js:372-398), recursing on the number of
loop iterations still allowed. When the fuel runs out the loop has exited
without returning and line 400 throws the fallback error. -/
def retryAux (op : Nat → Except JsError α) (jitter : Nat → ℚ)
    (contextInfo : String) (attempt : Nat) : Nat → RetryTrace α
  | 0 =>
    ⟨Except.error ⟨"Operation failed after retries: " ++ contextInfo⟩, 0, []⟩
  | remaining + 1 =>
    let newWaits : List ℚ := if attempt > 0 then [waitTime jitter attempt] else []
    match op attempt with
    | Except.ok v => ⟨Except.ok v, 1, newWaits⟩
    | Except.error e =>
      if isRetryable e then
        if attempt = MAX_RETRIES - 1 then ⟨Except.error e, 1, newWaits⟩
        else
          let t := retryAux op jitter contextInfo (attempt + 1) remaining
          ⟨t.result, t.invocations + 1, newWaits ++ t.waits⟩
      else ⟨Except.error e, 1, newWaits⟩

/-- src/index.js:368-401 — `executeWithRetry(operationFn, contextInfo)`:
run the operation under the bounded exponential-backoff policy, starting at
attempt 0 with `MAX_RETRIES` loop iterations available. -/
def executeWithRetry (op : Nat → Except JsError α) (jitter : Nat → ℚ)
    (contextInfo : String) : RetryTrace α :=
  retryAux op jitter contextInfo 0 MAX_RETRIES

/-- src/index.js:337, 353, 358 — a registry record: a status string together
with the optional final summary (`result`) and failure description (`error`);
JavaScript `null` is `none`. -/
structure Job where
  status : String
  result : Option String
  error : Option String
  deriving Repr, DecidableEq

/-- The in-memory `Map` of jobs (src/index.js:334), viewed extensionally as
a partial map from job ids to records. -/
def Registry : Type := String → Option Job

/-- `Map.set` on the registry: pointwise update at one key. -/
def registrySet (r : Registry) (jobId : String) (job : Job) : Registry :=
  fun k => if k = jobId then some job else r k

namespace jobManager

/-- src/index.js:336-338 — `jobManager.create(jobId)`: set the record for
`jobId` to a fresh PENDING record. `Map.set` stores unconditionally. -/
def create (r : Registry) (jobId : String) : Registry :=
  registrySet r jobId { status := "PENDING", result := none, error := none }

/-- src/index.js:340-342 — `jobManager.get(jobId)`. -/
def get (r : Registry) (jobId : String) : Option Job :=
  r jobId

/-- src/index.js:344-350 — `jobManager.updateStatus(jobId, status)`: when a
record is present, store a copy with the new status; otherwise do nothing. -/
def updateStatus (r : Registry) (jobId : String) (status : String) : Registry :=
  match r jobId with
  | some job => registrySet r jobId { job with status := status }
  | none => r

/-- src/index.js:352-355 — `jobManager.complete(jobId, result)`. -/
def complete (r : Registry) (jobId : String) (result : String) : Registry :=
  registrySet r jobId { status := "COMPLETED", result := some result, error := none }

/-- src/index.js:357-360 — `jobManager.fail(jobId, errorMsg)`. -/
def fail (r : Registry) (jobId : String) (errorMsg : String) : Registry :=
  registrySet r jobId { status := "FAILED", result := none, error := some errorMsg }

/-- src/index.js:362-365 — `jobManager.delete(jobId)`. -/
def remove (r : Registry) (jobId : String) : Registry :=
  fun k => if k = jobId then none else r k

end jobManager

/-- src/gcp-core.js:270-280 — `deleteGCSFile(gcsFileName)`: return at once on
a falsy name, otherwise attempt the bucket deletion (its outcome supplied as
`delOutcome`) and catch any failure, logging a warning only. -/
def deleteGCSFile (gcsFileName : String) (delOutcome : Except JsError Unit) :
    Except JsError Unit :=
  if gcsFileName = "" then Except.ok ()
  else
    match delOutcome with
    | Except.ok _ => Except.ok ()
    | Except.error _ => Except.ok ()

/-- The observable trace of one pipeline run: its result, the statuses passed
to `jobManager.updateStatus` in order, and the file names passed to
`deleteGCSFile`. -/
structure PipelineRun where
  result : Except JsError String
  statusUpdates : List String
  deleteCalls : List String
  deriving Repr

/-- The outcomes of the external collaborators consumed by one audio-pipeline
run: the streaming upload, the transcription, and the per-invocation outcome
of `summarizeTextWithGemini` on the transcribed text. -/
structure AudioCollab where
  streamAudioToGCS : Except JsError String
  transcribeAudio : Except JsError String
  summarizeTextWithGemini : String → Nat → Except JsError String

/-- src/index.js:403-434 — `pipelineAudioSummarization(youtubeUrl, jobId)`:
derive the temporary GCS object name from the current time (`now` embeds
`Date.now()`), stream, transcribe, summarize under `executeWithRetry`,
reject a falsy summary, and in the `finally` block delete the temporary
object (whose outcome `delOutcome` is swallowed by `deleteGCSFile`). -/
def pipelineAudioSummarization (c : AudioCollab)
    (delOutcome : Except JsError Unit) (jitter : Nat → ℚ) (now : Nat) :
    PipelineRun :=
  let gcsFileName := "youtube_audio_" ++ toString now ++ ".mp3"
  let body : Except JsError String × List String :=
    match c.streamAudioToGCS with
    | Except.error e => (Except.error e, ["STREAMING"])
    | Except.ok _gcsUri =>
      match c.transcribeAudio with
      | Except.error e => (Except.error e, ["STREAMING", "TRANSCRIBING"])
      | Except.ok transcribedText =>
        let t := executeWithRetry (c.summarizeTextWithGemini transcribedText)
          jitter "Summarize Text"
        match t.result with
        | Except.error e =>
          (Except.error e, ["STREAMING", "TRANSCRIBING", "SUMMARIZING"])
        | Except.ok summary =>
          if summary = "" then
            (Except.error ⟨"Summary generation returned empty result."⟩,
              ["STREAMING", "TRANSCRIBING", "SUMMARIZING"])
          else (Except.ok summary, ["STREAMING", "TRANSCRIBING", "SUMMARIZING"])
  let deleteCalls : List String := if gcsFileName = "" then [] else [gcsFileName]
  let cleanup : Except JsError Unit :=
    if gcsFileName = "" then Except.ok () else deleteGCSFile gcsFileName delOutcome
  match cleanup with
  | Except.ok _ => ⟨body.1, body.2, deleteCalls⟩
  | Except.error e => ⟨Except.error e, body.2, deleteCalls⟩

/-- src/index.js:436-455 — `pipelineVideoSummarization(youtubeUrl, jobId)`:
set status SUMMARIZING, summarize the video under `executeWithRetry`, reject
a falsy summary. No storage object is created, so no delete call occurs.
`summarizeVideoWithGemini` gives the per-invocation collaborator outcome. -/
def pipelineVideoSummarization
    (summarizeVideoWithGemini : Nat → Except JsError String)
    (jitter : Nat → ℚ) : PipelineRun :=
  let t := executeWithRetry summarizeVideoWithGemini jitter "Summarize Video"
  match t.result with
  | Except.error e => ⟨Except.error e, ["SUMMARIZING"], []⟩
  | Except.ok summary =>
    if summary = "" then
      ⟨Except.error ⟨"Summary generation returned empty result."⟩,
        ["SUMMARIZING"], []⟩
    else ⟨Except.ok summary, ["SUMMARIZING"], []⟩

/-- src/index.js:476-484 — the completion handler attached by
`handleSummarizeRequest` to the background pipeline promise: on fulfilment
record COMPLETED with the summary via `jobManager.complete`, on rejection
record FAILED with the error's message via `jobManager.fail`. -/
def recordOutcome (r : Registry) (jobId : String)
    (outcome : Except JsError String) : Registry :=
  match outcome with
  | Except.ok summary => jobManager.complete r jobId summary
  | Except.error e => jobManager.fail r jobId e.message

/-- Embedding of JavaScript truthiness for an optional string request-body
field: an absent field (`undefined`) and the empty string are falsy, every
other string is truthy. -/
def jsTruthy : Option String → Bool
  | none => false
  | some s => !(s == "")

/-- The HTTP-visible outcome of one dispatch: the response status code,
whether a job record was created, and the resulting registry. -/
structure DispatchOutcome where
  httpStatus : Nat
  jobCreated : Bool
  registry : Registry

/-- src/index.js:457-485 — `handleSummarizeRequest(pipelineFn)`: reject a
falsy `youtubeUrl` with 400 and no job; otherwise create the job as PENDING,
answer 202, and, when the background pipeline settles with
`pipelineOutcome`, record it through the completion handler. -/
def handleSummarizeRequest (youtubeUrl : Option String) (jobId : String)
    (pipelineOutcome : Except JsError String) (r : Registry) :
    DispatchOutcome :=
  if jsTruthy youtubeUrl = false then ⟨400, false, r⟩
  else ⟨202, true, recordOutcome (jobManager.create r jobId) jobId pipelineOutcome⟩

/-- src/index.js:508-524 — the `/speak` route: reject falsy `text` with 400
before invoking speech synthesis; otherwise synthesize (outcome supplied by
`generateSpeechAudio`), answering 200 on success and 500 on failure. The
second component records whether synthesis was invoked. -/
def handleSpeak (text : Option String)
    (generateSpeechAudio : String → Except JsError (List Nat)) : Nat × Bool :=
  if jsTruthy text = false then (400, false)
  else
    match generateSpeechAudio (text.getD "") with
    | Except.ok _ => (200, true)
    | Except.error _ => (500, true)

/-- src/index.js:501 — a status string is terminal when it is COMPLETED or
FAILED. -/
def isTerminal (status : String) : Bool :=
  status = "COMPLETED" || status = "FAILED"

/-- The job-record invariant of the specification's data model: in COMPLETED
only `result` is set, in FAILED only `error` is set, and in any non-terminal
status both are unset. -/
def jobInvariant (j : Job) : Prop :=
  (j.status = "COMPLETED" → j.result.isSome ∧ j.error = none) ∧
  (j.status = "FAILED" → j.error.isSome ∧ j.result = none) ∧
  (isTerminal j.status = false → j.result = none ∧ j.error = none)

/-- The registry-wide invariant: every stored record satisfies
`jobInvariant`. -/
def RegistryInv (r : Registry) : Prop :=
  ∀ k j, r k = some j → jobInvariant j

/-- The terminal status the dispatcher's completion handler records for a
settled pipeline outcome (src/index.js:476-484). -/
def terminalOf (outcome : Except JsError String) : String :=
  match outcome with
  | Except.ok _ => "COMPLETED"
  | Except.error _ => "FAILED"

/-- The sequence of status values a dispatched job's record takes over its
lifetime: PENDING at creation (src/index.js:465 via `jobManager.create`),
then the pipeline's status updates in order, then the terminal status the
completion handler records. -/
def jobStatusTrace (run : PipelineRun) : List String :=
  "PENDING" :: (run.statusUpdates ++ [terminalOf run.result])

/-- The canonical lifecycle order of §4.4, ending in the given terminal
status. -/
def canonicalOrder (terminal : String) : List String :=
  ["PENDING", "STREAMING", "TRANSCRIBING", "SUMMARIZING", terminal]

/-! ### Helper lemmas about the retry executor -/

/-- A successful `retryAux` result comes from an invocation of the operation
that succeeded, at some attempt within the fuel window. -/
theorem retryAux_ok_of_result {α : Type} (op : Nat → Except JsError α)
    (jitter : Nat → ℚ) (ctx : String) (v : α) :
    ∀ fuel attempt, (retryAux op jitter ctx attempt fuel).result = Except.ok v →
      ∃ n, attempt ≤ n ∧ n < attempt + fuel ∧ op n = Except.ok v := by
  intro fuel
  induction fuel with
  | zero => intro attempt h; simp [retryAux] at h
  | succ m ih =>
    intro attempt h
    rw [retryAux] at h
    rcases hop : op attempt with e | w
    · rw [hop] at h
      simp only at h
      by_cases hr : isRetryable e
      · rw [if_pos hr] at h
        by_cases hl : attempt = MAX_RETRIES - 1
        · rw [if_pos hl] at h; simp at h
        · rw [if_neg hl] at h
          simp only at h
          obtain ⟨n, h1, h2, h3⟩ := ih (attempt + 1) h
          exact ⟨n, by omega, by omega, h3⟩
      · rw [if_neg hr] at h; simp at h
    · rw [hop] at h
      simp only at h
      have hw : w = v := by simpa using h
      exact ⟨attempt, le_refl _, by omega, by rw [hop, hw]⟩

/-- Starting from a positive attempt index, the waits performed by `retryAux`
are exactly the computed backoff times of the attempts it runs, in order. -/
theorem retryAux_waits_pos {α : Type} (op : Nat → Except JsError α)
    (jitter : Nat → ℚ) (ctx : String) :
    ∀ fuel attempt, 1 ≤ attempt →
      (retryAux op jitter ctx attempt fuel).waits =
        List.map (waitTime jitter)
          (List.range' attempt (retryAux op jitter ctx attempt fuel).invocations) := by
  intro fuel
  induction fuel with
  | zero => intro attempt _; simp [retryAux]
  | succ m ih =>
    intro attempt ha
    rw [retryAux]
    rcases hop : op attempt with e | w <;> simp only
    · by_cases hr : isRetryable e
      · rw [if_pos hr]
        by_cases hl : attempt = MAX_RETRIES - 1
        · rw [if_pos hl]
          simp [if_pos (by omega : attempt > 0), List.range'_succ]
        · rw [if_neg hl]
          simp only [if_pos (by omega : attempt > 0)]
          rw [ih (attempt + 1) (by omega), List.range'_succ]
          simp
      · rw [if_neg hr]
        simp [if_pos (by omega : attempt > 0), List.range'_succ]
    · simp [if_pos (by omega : attempt > 0), List.range'_succ]

/-- The waits of a full `executeWithRetry` run are the backoff times of
attempts `1 … invocations - 1`: no wait precedes the first attempt and one
wait precedes each retry. -/
theorem executeWithRetry_waits {α : Type} (op : Nat → Except JsError α)
    (jitter : Nat → ℚ) (ctx : String) :
    (executeWithRetry op jitter ctx).waits =
      List.map (waitTime jitter)
        (List.range' 1 ((executeWithRetry op jitter ctx).invocations - 1)) := by
  rw [executeWithRetry, MAX_RETRIES, retryAux]
  rcases hop : op 0 with e | w <;> simp only
  · by_cases hr : isRetryable e
    · rw [if_pos hr]
      rw [if_neg (by norm_num [MAX_RETRIES])]
      simp only [show ¬((0:Nat) > 0) by omega, if_false, List.nil_append]
      rw [retryAux_waits_pos op jitter ctx 4 1 (by norm_num)]
      simp
    · rw [if_neg hr]; simp
  · simp

/-- Lower bound on a computed wait: the jitter is nonnegative. -/
theorem waitTime_ge (jitter : Nat → ℚ) (hj : ∀ n, 0 ≤ jitter n ∧ jitter n < 500)
    (n : Nat) : 1000 * 2 ^ (n - 1) ≤ waitTime jitter n := by
  have := (hj n).1
  rw [waitTime, INITIAL_DELAY]
  linarith

/-- Strict growth of the computed waits: the backoff doubling dominates the
bounded jitter. -/
theorem waitTime_lt_waitTime (jitter : Nat → ℚ)
    (hj : ∀ n, 0 ≤ jitter n ∧ jitter n < 500) (a b : Nat)
    (ha : 1 ≤ a) (hab : a < b) : waitTime jitter a < waitTime jitter b := by
  have hja := (hj a).2
  have hjb := (hj b).1
  have h1 : (1 : ℚ) ≤ 2 ^ (a - 1) := by
    have := pow_le_pow_right₀ (by norm_num : (1:ℚ) ≤ 2) (Nat.zero_le (a - 1))
    simpa using this
  have h2 : (2 : ℚ) ^ a ≤ 2 ^ (b - 1) :=
    pow_le_pow_right₀ (by norm_num : (1:ℚ) ≤ 2) (by omega)
  have h3 : (2 : ℚ) ^ a = 2 ^ (a - 1) * 2 := by
    rw [← pow_succ]
    congr 1
    omega
  rw [waitTime, waitTime, INITIAL_DELAY]
  nlinarith

/-- C1: if a zero-argument asynchronous operation fails with a retryable
(503/429/408-marked) error on its first k invocations (0 ≤ k ≤ 4) and
succeeds on invocation k+1, then `executeWithRetry` returns the operation's
success value and invokes the operation exactly k+1 times. -/
theorem executeWithRetry_success_after_retryable_failures {α : Type}
    (op : Nat → Except JsError α) (jitter : Nat → ℚ) (ctx : String)
    (k : Nat) (v : α) (e : Nat → JsError)
    (hk : k ≤ 4)
    (hop : ∀ i, i < k → op i = Except.error (e i))
    (hret : ∀ i, i < k → isRetryable (e i) = true)
    (hs : op k = Except.ok v) :
    (executeWithRetry op jitter ctx).result = Except.ok v ∧
    (executeWithRetry op jitter ctx).invocations = k + 1 := by
  interval_cases k
  · simp [executeWithRetry, retryAux, hs]
  · have h0 := hop 0 (by norm_num)
    have r0 := hret 0 (by norm_num)
    simp [executeWithRetry, retryAux, h0, r0, hs, MAX_RETRIES]
  · have h0 := hop 0 (by norm_num); have r0 := hret 0 (by norm_num)
    have h1 := hop 1 (by norm_num); have r1 := hret 1 (by norm_num)
    simp [executeWithRetry, retryAux, h0, r0, h1, r1, hs, MAX_RETRIES]
  · have h0 := hop 0 (by norm_num); have r0 := hret 0 (by norm_num)
    have h1 := hop 1 (by norm_num); have r1 := hret 1 (by norm_num)
    have h2 := hop 2 (by norm_num); have r2 := hret 2 (by norm_num)
    simp [executeWithRetry, retryAux, h0, r0, h1, r1, h2, r2, hs, MAX_RETRIES]
  · have h0 := hop 0 (by norm_num); have r0 := hret 0 (by norm_num)
    have h1 := hop 1 (by norm_num); have r1 := hret 1 (by norm_num)
    have h2 := hop 2 (by norm_num); have r2 := hret 2 (by norm_num)
    have h3 := hop 3 (by norm_num); have r3 := hret 3 (by norm_num)
    simp [executeWithRetry, retryAux, h0, r0, h1, r1, h2, r2, h3, r3, hs, MAX_RETRIES]

/-- C1 witness: an operation failing with a 503-marked error 4 times then
succeeding yields the success value after exactly 5 invocations. -/
theorem executeWithRetry_success_after_retryable_failures_witness :
    (executeWithRetry
      (fun i => if i < 4 then Except.error ⟨"503 Service Unavailable"⟩
        else Except.ok "summary") (fun _ => 0) "Summarize Text").result =
      Except.ok "summary" ∧
    (executeWithRetry
      (fun i => if i < 4 then Except.error ⟨"503 Service Unavailable"⟩
        else Except.ok "summary") (fun _ => 0) "Summarize Text").invocations = 5 :=
  executeWithRetry_success_after_retryable_failures
    (fun i => if i < 4 then Except.error ⟨"503 Service Unavailable"⟩
      else Except.ok "summary")
    (fun _ => 0) "Summarize Text" 4 "summary"
    (fun _ => ⟨"503 Service Unavailable"⟩)
    (by norm_num)
    (fun i hi => by interval_cases i <;> rfl)
    (fun i _ => show isRetryable ⟨"503 Service Unavailable"⟩ = true by decide)
    (by rfl)

/-- C2: `executeWithRetry` re-raises and never swallows errors. (a) A
non-retryable failure at the attempt reached after n retryable failures is
re-raised at once: the operation is invoked exactly n+1 times and only the n
waits before the failing attempt occur. (b) If the final (5th) allowed
attempt fails with a retryable error, that error is re-raised. (c) A normal
return always carries a value some invocation of the operation produced. -/
theorem executeWithRetry_reraises {α : Type}
    (op : Nat → Except JsError α) (jitter : Nat → ℚ) (ctx : String) :
    (∀ (n : Nat) (e : Nat → JsError) (f : JsError), n ≤ 4 →
      (∀ i, i < n → op i = Except.error (e i)) →
      (∀ i, i < n → isRetryable (e i) = true) →
      op n = Except.error f → isRetryable f = false →
      (executeWithRetry op jitter ctx).result = Except.error f ∧
      (executeWithRetry op jitter ctx).invocations = n + 1 ∧
      (executeWithRetry op jitter ctx).waits.length = n) ∧
    (∀ (e : Nat → JsError),
      (∀ i, i < 5 → op i = Except.error (e i)) →
      (∀ i, i < 5 → isRetryable (e i) = true) →
      (executeWithRetry op jitter ctx).result = Except.error (e 4) ∧
      (executeWithRetry op jitter ctx).invocations = 5) ∧
    (∀ v : α, (executeWithRetry op jitter ctx).result = Except.ok v →
      ∃ n, n < 5 ∧ op n = Except.ok v) := by
  refine ⟨?_, ?_, ?_⟩
  · intro n e f hn hop hret hf hfr
    interval_cases n
    · simp [executeWithRetry, retryAux, hf, hfr, MAX_RETRIES]
    · have h0 := hop 0 (by norm_num); have r0 := hret 0 (by norm_num)
      simp [executeWithRetry, retryAux, h0, r0, hf, hfr, MAX_RETRIES]
    · have h0 := hop 0 (by norm_num); have r0 := hret 0 (by norm_num)
      have h1 := hop 1 (by norm_num); have r1 := hret 1 (by norm_num)
      simp [executeWithRetry, retryAux, h0, r0, h1, r1, hf, hfr, MAX_RETRIES]
    · have h0 := hop 0 (by norm_num); have r0 := hret 0 (by norm_num)
      have h1 := hop 1 (by norm_num); have r1 := hret 1 (by norm_num)
      have h2 := hop 2 (by norm_num); have r2 := hret 2 (by norm_num)
      simp [executeWithRetry, retryAux, h0, r0, h1, r1, h2, r2, hf, hfr,
        MAX_RETRIES]
    · have h0 := hop 0 (by norm_num); have r0 := hret 0 (by norm_num)
      have h1 := hop 1 (by norm_num); have r1 := hret 1 (by norm_num)
      have h2 := hop 2 (by norm_num); have r2 := hret 2 (by norm_num)
      have h3 := hop 3 (by norm_num); have r3 := hret 3 (by norm_num)
      simp [executeWithRetry, retryAux, h0, r0, h1, r1, h2, r2, h3, r3, hf,
        hfr, MAX_RETRIES]
  · intro e hop hret
    have h0 := hop 0 (by norm_num); have r0 := hret 0 (by norm_num)
    have h1 := hop 1 (by norm_num); have r1 := hret 1 (by norm_num)
    have h2 := hop 2 (by norm_num); have r2 := hret 2 (by norm_num)
    have h3 := hop 3 (by norm_num); have r3 := hret 3 (by norm_num)
    have h4 := hop 4 (by norm_num); have r4 := hret 4 (by norm_num)
    simp [executeWithRetry, retryAux, h0, r0, h1, r1, h2, r2, h3, r3, h4, r4,
      MAX_RETRIES]
  · intro v h
    obtain ⟨n, _, h2, h3⟩ :=
      retryAux_ok_of_result op jitter ctx v MAX_RETRIES 0 h
    exact ⟨n, by simpa [MAX_RETRIES] using h2, h3⟩

/-- C2 witness: an operation failing with a non-retryable error on its first
invocation is re-raised immediately — one invocation, zero waits. -/
theorem executeWithRetry_reraises_witness :
    (executeWithRetry (fun _ => (Except.error ⟨"malformed input"⟩ : Except JsError String))
      (fun _ => 0) "Summarize Text").result = Except.error ⟨"malformed input"⟩ ∧
    (executeWithRetry (fun _ => (Except.error ⟨"malformed input"⟩ : Except JsError String))
      (fun _ => 0) "Summarize Text").invocations = 0 + 1 ∧
    (executeWithRetry (fun _ => (Except.error ⟨"malformed input"⟩ : Except JsError String))
      (fun _ => 0) "Summarize Text").waits.length = 0 :=
  (executeWithRetry_reraises
      (fun _ => (Except.error ⟨"malformed input"⟩ : Except JsError String))
      (fun _ => 0) "Summarize Text").1
    0 (fun _ => ⟨"malformed input"⟩) ⟨"malformed input"⟩
    (by norm_num)
    (fun i hi => absurd hi (by omega))
    (fun i hi => absurd hi (by omega))
    (by rfl)
    (show isRetryable ⟨"malformed input"⟩ = false by decide)

/-- C6: in `executeWithRetry` the first attempt is never preceded by a wait
and the wait before retry attempt n (n ≥ 1) is `1000 * 2^(n-1)` plus the
jitter drawn from [0, 500): the run's waits are exactly the computed backoff
times of attempts 1 … invocations-1, each wait is at least `1000 * 2^(n-1)`,
and the sequence of waits is strictly increasing. -/
theorem executeWithRetry_backoff_waits {α : Type}
    (op : Nat → Except JsError α) (jitter : Nat → ℚ) (ctx : String)
    (hj : ∀ n, 0 ≤ jitter n ∧ jitter n < 500) :
    (executeWithRetry op jitter ctx).waits =
      List.map (waitTime jitter)
        (List.range' 1 ((executeWithRetry op jitter ctx).invocations - 1)) ∧
    (∀ n, 1 ≤ n → waitTime jitter n = 1000 * 2 ^ (n - 1) + jitter n) ∧
    (∀ n, 1 ≤ n → 1000 * 2 ^ (n - 1) ≤ waitTime jitter n) ∧
    List.Pairwise (· < ·) (executeWithRetry op jitter ctx).waits := by
  refine ⟨executeWithRetry_waits op jitter ctx, ?_, ?_, ?_⟩
  · intro n _
    rw [waitTime, INITIAL_DELAY]
  · intro n _
    exact waitTime_ge jitter hj n
  · rw [executeWithRetry_waits op jitter ctx]
    apply List.pairwise_map.mpr
    apply List.Pairwise.imp_of_mem ?_
      (List.pairwise_lt_range' 1 ((executeWithRetry op jitter ctx).invocations - 1))
    intro a b ha _ hab
    exact waitTime_lt_waitTime jitter hj a b (List.mem_range'_1.1 ha).1 hab

/-- C6 witness: with zero jitter and an operation that fails with 503-marked
errors until its fifth invocation, the waits are 1000, 2000, 4000, 8000 ms
and strictly increase. -/
theorem executeWithRetry_backoff_waits_witness :
    (executeWithRetry
      (fun i => if i < 4 then Except.error ⟨"503 upstream"⟩
        else Except.ok "ok") (fun _ => 0) "Summarize Video").waits =
      List.map (waitTime (fun _ => 0))
        (List.range' 1 ((executeWithRetry
          (fun i => if i < 4 then Except.error ⟨"503 upstream"⟩
            else Except.ok "ok") (fun _ => 0) "Summarize Video").invocations - 1)) ∧
    (∀ n, 1 ≤ n → waitTime (fun _ => 0) n = 1000 * 2 ^ (n - 1) + (fun _ => (0:ℚ)) n) ∧
    (∀ n, 1 ≤ n → 1000 * 2 ^ (n - 1) ≤ waitTime (fun _ => (0:ℚ)) n) ∧
    List.Pairwise (· < ·) (executeWithRetry
      (fun i => if i < 4 then Except.error ⟨"503 upstream"⟩
        else Except.ok "ok") (fun _ => 0) "Summarize Video").waits :=
  executeWithRetry_backoff_waits
    (fun i => if i < 4 then Except.error ⟨"503 upstream"⟩ else Except.ok "ok")
    (fun _ => 0) "Summarize Video"
    (fun _ => ⟨le_refl 0, by norm_num⟩)

/-- The temporary object name derived at audio-pipeline start is never the
empty string, so the `if (gcsFileName)` guard always passes. -/
theorem gcsFileName_ne_empty (now : Nat) :
    ("youtube_audio_" ++ toString now ++ ".mp3") ≠ "" := by
  intro h
  have hd := congrArg String.data h
  simp [String.data_append] at hd

/-- `deleteGCSFile` never propagates a failure: whatever the underlying
bucket deletion does, it returns normally. -/
theorem deleteGCSFile_ok (name : String) (d : Except JsError Unit) :
    deleteGCSFile name d = Except.ok () := by
  simp only [deleteGCSFile]
  by_cases h : name = ""
  · rw [if_pos h]
  · rw [if_neg h]
    rcases d with e | u <;> rfl

/-- C3: on every exit path of the audio pipeline the delete collaborator is
invoked with the temporary object name derived at pipeline start, a failure
of the deletion itself is swallowed by `deleteGCSFile`, the pipeline's own
result or error is independent of the deletion's outcome, and a stage
failure (streaming, or transcription after a successful stream) propagates
to the caller unchanged. -/
theorem pipelineAudioSummarization_cleanup (c : AudioCollab)
    (d₁ d₂ : Except JsError Unit) (jitter : Nat → ℚ) (now : Nat) :
    (pipelineAudioSummarization c d₁ jitter now).deleteCalls =
      ["youtube_audio_" ++ toString now ++ ".mp3"] ∧
    deleteGCSFile ("youtube_audio_" ++ toString now ++ ".mp3") d₁ =
      Except.ok () ∧
    (pipelineAudioSummarization c d₁ jitter now).result =
      (pipelineAudioSummarization c d₂ jitter now).result ∧
    (∀ e : JsError, c.streamAudioToGCS = Except.error e →
      (pipelineAudioSummarization c d₁ jitter now).result = Except.error e) ∧
    (∀ (e : JsError) (u : String), c.streamAudioToGCS = Except.ok u →
      c.transcribeAudio = Except.error e →
      (pipelineAudioSummarization c d₁ jitter now).result = Except.error e) := by
  refine ⟨?_, deleteGCSFile_ok _ _, ?_, ?_, ?_⟩
  · simp [pipelineAudioSummarization, deleteGCSFile_ok,
      gcsFileName_ne_empty now]
  · simp [pipelineAudioSummarization, deleteGCSFile_ok,
      gcsFileName_ne_empty now]
  · intro e he
    simp [pipelineAudioSummarization, deleteGCSFile_ok,
      gcsFileName_ne_empty now, he]
  · intro e u hu he
    simp [pipelineAudioSummarization, deleteGCSFile_ok,
      gcsFileName_ne_empty now, hu, he]

/-- C3 witness: with a successful stream, a failing transcription and a
delete collaborator that itself fails, the temporary object's deletion is
still attempted, the deletion failure is swallowed, and the pipeline's own
transcription error is what comes back. -/
theorem pipelineAudioSummarization_cleanup_witness :
    (pipelineAudioSummarization
      ⟨Except.ok "gs://youtube-audio-bucket-kyvc/youtube_audio_7.mp3",
        Except.error ⟨"Speech-to-Text error."⟩, fun _ _ => Except.ok "s"⟩
      (Except.error ⟨"permission denied"⟩) (fun _ => 0) 7).deleteCalls =
      ["youtube_audio_" ++ toString 7 ++ ".mp3"] ∧
    deleteGCSFile ("youtube_audio_" ++ toString 7 ++ ".mp3")
      (Except.error ⟨"permission denied"⟩) = Except.ok () ∧
    (pipelineAudioSummarization
      ⟨Except.ok "gs://youtube-audio-bucket-kyvc/youtube_audio_7.mp3",
        Except.error ⟨"Speech-to-Text error."⟩, fun _ _ => Except.ok "s"⟩
      (Except.error ⟨"permission denied"⟩) (fun _ => 0) 7).result =
      Except.error ⟨"Speech-to-Text error."⟩ :=
  have h := pipelineAudioSummarization_cleanup
    ⟨Except.ok "gs://youtube-audio-bucket-kyvc/youtube_audio_7.mp3",
      Except.error ⟨"Speech-to-Text error."⟩, fun _ _ => Except.ok "s"⟩
    (Except.error ⟨"permission denied"⟩) (Except.ok ()) (fun _ => 0) 7
  ⟨h.1, h.2.1,
    h.2.2.2.2 ⟨"Speech-to-Text error."⟩
      "gs://youtube-audio-bucket-kyvc/youtube_audio_7.mp3" rfl rfl⟩

/-- C4: when the background pipeline task settles, the completion handler
records exactly one terminal outcome for the job: COMPLETED carrying the
summary on a normal return, FAILED carrying the error's message on a throw;
in all cases the settled job's record is terminal. -/
theorem recordOutcome_terminal (r : Registry) (jobId : String) :
    (∀ summary, recordOutcome r jobId (Except.ok summary) jobId =
      some ⟨"COMPLETED", some summary, none⟩) ∧
    (∀ e : JsError, recordOutcome r jobId (Except.error e) jobId =
      some ⟨"FAILED", none, some e.message⟩) ∧
    (∀ outcome : Except JsError String, ∃ j,
      recordOutcome r jobId outcome jobId = some j ∧
      isTerminal j.status = true ∧ j.status = terminalOf outcome) := by
  refine ⟨?_, ?_, ?_⟩
  · intro summary
    simp [recordOutcome, jobManager.complete, registrySet]
  · intro e
    simp [recordOutcome, jobManager.fail, registrySet]
  · intro outcome
    rcases outcome with e | s
    · refine ⟨⟨"FAILED", none, some e.message⟩, ?_, ?_, ?_⟩
      · simp [recordOutcome, jobManager.fail, registrySet]
      · simp [isTerminal]
      · simp [terminalOf]
    · refine ⟨⟨"COMPLETED", some s, none⟩, ?_, ?_, ?_⟩
      · simp [recordOutcome, jobManager.complete, registrySet]
      · simp [isTerminal]
      · simp [terminalOf]

/-- C5: over a job's lifetime the statuses its record takes form a
subsequence of `PENDING, STREAMING, TRANSCRIBING, SUMMARIZING,
{COMPLETED|FAILED}` with no status revisited; the audio pipeline visits its
stage statuses in that order, and the video pipeline moves from PENDING
directly to SUMMARIZING and then to its terminal status. -/
theorem jobStatusTrace_subsequence :
    (∀ (c : AudioCollab) (d : Except JsError Unit) (jitter : Nat → ℚ)
        (now : Nat),
      List.Sublist (jobStatusTrace (pipelineAudioSummarization c d jitter now))
        (canonicalOrder
          (terminalOf (pipelineAudioSummarization c d jitter now).result)) ∧
      (jobStatusTrace (pipelineAudioSummarization c d jitter now)).Nodup) ∧
    (∀ (summarizeVideoWithGemini : Nat → Except JsError String)
        (jitter : Nat → ℚ),
      jobStatusTrace (pipelineVideoSummarization summarizeVideoWithGemini jitter) =
        ["PENDING", "SUMMARIZING",
          terminalOf
            (pipelineVideoSummarization summarizeVideoWithGemini jitter).result] ∧
      (jobStatusTrace
        (pipelineVideoSummarization summarizeVideoWithGemini jitter)).Nodup) := by
  constructor
  · intro c d jitter now
    have hdel := deleteGCSFile_ok ("youtube_audio_" ++ toString now ++ ".mp3") d
    have hne := gcsFileName_ne_empty now
    rcases hs : c.streamAudioToGCS with e | uri
    · constructor <;>
        simp [jobStatusTrace, pipelineAudioSummarization, hs, hdel, hne,
          terminalOf, canonicalOrder]
    · rcases ht : c.transcribeAudio with e | transcribedText
      · constructor <;>
          simp [jobStatusTrace, pipelineAudioSummarization, hs, ht, hdel, hne,
            terminalOf, canonicalOrder]
      · rcases hr : (executeWithRetry (c.summarizeTextWithGemini transcribedText)
          jitter "Summarize Text").result with e | summary
        · constructor <;>
            simp [jobStatusTrace, pipelineAudioSummarization, hs, ht, hr, hdel,
              hne, terminalOf, canonicalOrder]
        · by_cases hemp : summary = ""
          · constructor <;>
              simp [jobStatusTrace, pipelineAudioSummarization, hs, ht, hr,
                hemp, hdel, hne, terminalOf, canonicalOrder]
          · constructor <;>
              simp [jobStatusTrace, pipelineAudioSummarization, hs, ht, hr,
                hemp, hdel, hne, terminalOf, canonicalOrder]
  · intro sv jitter
    rcases hr : (executeWithRetry sv jitter "Summarize Video").result with e | summary
    · constructor <;>
        simp [jobStatusTrace, pipelineVideoSummarization, hr, terminalOf]
    · by_cases hemp : summary = ""
      · constructor <;>
          simp [jobStatusTrace, pipelineVideoSummarization, hr, hemp,
            terminalOf]
      · constructor <;>
          simp [jobStatusTrace, pipelineVideoSummarization, hr, hemp,
            terminalOf]

/-- A non-terminal status string is neither COMPLETED nor FAILED. -/
theorem not_terminal_iff (s : String) :
    isTerminal s = false ↔ s ≠ "COMPLETED" ∧ s ≠ "FAILED" := by
  simp [isTerminal]

/-- C7: terminal records carry exactly one of result/error (COMPLETED the
result, FAILED the error) and non-terminal records carry neither; each
registry mutation the program performs — create, updateStatus (called only
with a non-terminal status on a job whose record is not yet terminal),
complete, fail — preserves this invariant for every stored record. -/
theorem jobManager_preserves_invariant :
    (∀ r : Registry, RegistryInv r →
      ∀ jobId, RegistryInv (jobManager.create r jobId)) ∧
    (∀ (r : Registry) (jobId status : String), RegistryInv r →
      isTerminal status = false →
      (∀ j, r jobId = some j → isTerminal j.status = false) →
      RegistryInv (jobManager.updateStatus r jobId status)) ∧
    (∀ (r : Registry) (jobId res : String), RegistryInv r →
      RegistryInv (jobManager.complete r jobId res)) ∧
    (∀ (r : Registry) (jobId msg : String), RegistryInv r →
      RegistryInv (jobManager.fail r jobId msg)) := by
  refine ⟨?_, ?_, ?_, ?_⟩
  · intro r hr jobId k j hk
    rw [jobManager.create, registrySet] at hk
    by_cases he : k = jobId
    · rw [if_pos he] at hk
      cases hk
      simp [jobInvariant, isTerminal]
    · rw [if_neg he] at hk
      exact hr k j hk
  · intro r jobId status hr hst hrec k j hk
    rw [jobManager.updateStatus] at hk
    rcases hj : r jobId with _ | job
    · rw [hj] at hk
      exact hr k j hk
    · rw [hj] at hk
      simp only [registrySet] at hk
      by_cases he : k = jobId
      · rw [if_pos he] at hk
        cases hk
        have hnt := hrec job hj
        have hinv := hr jobId job hj
        obtain ⟨hres, herr⟩ := hinv.2.2 hnt
        refine ⟨?_, ?_, ?_⟩
        · intro hcs
          exact absurd hcs ((not_terminal_iff status).1 hst).1
        · intro hcs
          exact absurd hcs ((not_terminal_iff status).1 hst).2
        · intro _
          exact ⟨hres, herr⟩
      · rw [if_neg he] at hk
        exact hr k j hk
  · intro r jobId res hr k j hk
    rw [jobManager.complete, registrySet] at hk
    by_cases he : k = jobId
    · rw [if_pos he] at hk
      cases hk
      simp [jobInvariant, isTerminal]
    · rw [if_neg he] at hk
      exact hr k j hk
  · intro r jobId msg hr k j hk
    rw [jobManager.fail, registrySet] at hk
    by_cases he : k = jobId
    · rw [if_pos he] at hk
      cases hk
      simp [jobInvariant, isTerminal]
    · rw [if_neg he] at hk
      exact hr k j hk

/-- C7 witness: starting from the empty registry, creating a job and then
moving it to STREAMING — the calls the program performs — keeps every stored
record satisfying the invariant. -/
theorem jobManager_preserves_invariant_witness :
    RegistryInv
      (jobManager.updateStatus
        (jobManager.create (fun _ => none) "job-1") "job-1" "STREAMING") :=
  jobManager_preserves_invariant.2.1
    (jobManager.create (fun _ => none) "job-1") "job-1" "STREAMING"
    (jobManager_preserves_invariant.1 (fun _ => none)
      (fun _ j h => absurd h (by simp)) "job-1")
    (by decide)
    (fun j h => by
      rw [jobManager.create, registrySet] at h
      rw [if_pos rfl] at h
      cases h
      decide)

/-- C8: `jobManager.updateStatus` replaces only the status field of an
existing record, preserving result and error and every other key; on an
absent job id it is a no-op that leaves the registry unchanged. -/
theorem jobManager_updateStatus_frame (r : Registry) (jobId status : String) :
    (∀ j, r jobId = some j →
      jobManager.updateStatus r jobId status jobId =
        some { status := status, result := j.result, error := j.error } ∧
      ∀ k, k ≠ jobId → jobManager.updateStatus r jobId status k = r k) ∧
    (r jobId = none → jobManager.updateStatus r jobId status = r) := by
  constructor
  · intro j hj
    constructor
    · rw [jobManager.updateStatus, hj]
      simp [registrySet]
    · intro k hk
      rw [jobManager.updateStatus, hj]
      simp [registrySet, hk]
  · intro hj
    rw [jobManager.updateStatus, hj]

/-- C8 witness: on a concrete registry holding one PENDING job, updating its
status to STREAMING rewrites only the status field and leaves another key
untouched; on the concrete missing id the registry is unchanged. -/
theorem jobManager_updateStatus_frame_witness :
    (jobManager.updateStatus
      (fun k => if k = "job-1" then some ⟨"PENDING", none, none⟩ else none)
      "job-1" "STREAMING" "job-1" =
      some { status := "STREAMING", result := none, error := none } ∧
    jobManager.updateStatus
      (fun k => if k = "job-1" then some ⟨"PENDING", none, none⟩ else none)
      "job-1" "STREAMING" "job-2" =
      (fun k => if k = "job-1" then some (⟨"PENDING", none, none⟩ : Job) else none)
        "job-2") ∧
    jobManager.updateStatus
      (fun k => if k = "job-1" then some ⟨"PENDING", none, none⟩ else none)
      "job-9" "STREAMING" =
      (fun k => if k = "job-1" then some ⟨"PENDING", none, none⟩ else none) := by
  constructor
  · obtain ⟨h1, h2⟩ :=
      (jobManager_updateStatus_frame
        (fun k => if k = "job-1" then some ⟨"PENDING", none, none⟩ else none)
        "job-1" "STREAMING").1 ⟨"PENDING", none, none⟩ (by decide)
    exact ⟨h1, h2 "job-2" (by decide)⟩
  · exact
      (jobManager_updateStatus_frame
        (fun k => if k = "job-1" then some ⟨"PENDING", none, none⟩ else none)
        "job-9" "STREAMING").2 (by decide)

/-- C9 counterexample: `jobManager.create` on an id that already has a
record is not a no-op — the existing COMPLETED record is overwritten with a
fresh PENDING one, so the registry changes. -/
theorem jobManager_create_not_noop :
    jobManager.create
      (fun k => if k = "job-1" then some ⟨"COMPLETED", some "done", none⟩ else none)
      "job-1" "job-1" = some ⟨"PENDING", none, none⟩ ∧
    (fun k => if k = "job-1" then some (⟨"COMPLETED", some "done", none⟩ : Job) else none)
      "job-1" = some ⟨"COMPLETED", some "done", none⟩ ∧
    jobManager.create
      (fun k => if k = "job-1" then some ⟨"COMPLETED", some "done", none⟩ else none)
      "job-1" "job-1" ≠
    (fun k => if k = "job-1" then some (⟨"COMPLETED", some "done", none⟩ : Job) else none)
      "job-1" := by
  refine ⟨?_, ?_, ?_⟩ <;> simp [jobManager.create, registrySet]

/-- C9 (amended): `jobManager.create(jobId)` always stores a fresh record
with status PENDING, no result and no error — inserting it when the id is
fresh and overwriting any record already present — while every other key is
left unchanged. -/
theorem jobManager_create_sets_pending (r : Registry) (jobId : String) :
    jobManager.create r jobId jobId =
      some { status := "PENDING", result := none, error := none } ∧
    ∀ k, k ≠ jobId → jobManager.create r jobId k = r k := by
  constructor
  · simp [jobManager.create, registrySet]
  · intro k hk
    simp [jobManager.create, registrySet, hk]

/-- C9 witness: creating a job in the empty registry stores the PENDING
record at its id and leaves a different id absent. -/
theorem jobManager_create_sets_pending_witness :
    jobManager.create (fun _ => none) "job-1" "job-1" =
      some { status := "PENDING", result := none, error := none } ∧
    jobManager.create (fun _ => none) "job-1" "job-2" =
      (fun _ => (none : Option Job)) "job-2" :=
  ⟨(jobManager_create_sets_pending (fun _ => none) "job-1").1,
    (jobManager_create_sets_pending (fun _ => none) "job-1").2 "job-2" (by decide)⟩

/-- C10: at the HTTP interface a present-but-empty request-body field is
treated exactly like an absent one, because presence is checked by JavaScript
truthiness: `/summarize` (and `/summarize-video`, which shares
`handleSummarizeRequest`) with an empty `youtubeUrl` answers 400 and creates
no job, and `/speak` with empty `text` answers 400 without invoking speech
synthesis. -/
theorem empty_body_field_like_absent :
    (∀ (r : Registry) (jobId : String) (outcome : Except JsError String),
      handleSummarizeRequest (some "") jobId outcome r =
        handleSummarizeRequest none jobId outcome r ∧
      (handleSummarizeRequest (some "") jobId outcome r).httpStatus = 400 ∧
      (handleSummarizeRequest (some "") jobId outcome r).jobCreated = false ∧
      (handleSummarizeRequest (some "") jobId outcome r).registry = r) ∧
    (∀ generateSpeechAudio : String → Except JsError (List Nat),
      handleSpeak (some "") generateSpeechAudio =
        handleSpeak none generateSpeechAudio ∧
      handleSpeak (some "") generateSpeechAudio = (400, false)) := by
  constructor
  · intro r jobId outcome
    exact ⟨rfl, rfl, rfl, rfl⟩
  · intro g
    exact ⟨rfl, rfl⟩
